import Mathlib

/-!
Verification of the gear/pin custom collision subsystem of
src/demos/trackVehicle/subsys/collision/TrackCollisionCallback.h.

The development shallowly embeds the C++ source: doubles become real numbers,
`std::vector` members become lists, and the object memory that the C++ code
manipulates through pointers (the reaction-cache vectors) is made explicit as a
small heap of float arrays, so that statements about which buffer a contact
record points at can be proved rather than asserted.
-/

namespace Chrono

/-- Models chrono::ChVector, a 3-component double vector (core library type,
outside src; only its componentwise arithmetic and Euclidean `Length` are
used by the collision code). -/
structure ChVector where
  x : ℝ
  y : ℝ
  z : ℝ

instance : Add ChVector := ⟨fun a b => ⟨a.x + b.x, a.y + b.y, a.z + b.z⟩⟩

instance : Sub ChVector := ⟨fun a b => ⟨a.x - b.x, a.y - b.y, a.z - b.z⟩⟩

/-- Euclidean norm, modelling ChVector::Length(). -/
noncomputable def ChVector.Length (v : ChVector) : ℝ :=
  Real.sqrt (v.x ^ 2 + v.y ^ 2 + v.z ^ 2)

/-- Models chrono::ChQuaternion (core library type, outside src). -/
structure ChQuaternion where
  e0 : ℝ
  e1 : ℝ
  e2 : ℝ
  e3 : ℝ

/-- Models ChQuaternion::Rotate: apply the rotation matrix of the (unit)
quaternion to a vector. -/
def ChQuaternion.Rotate (q : ChQuaternion) (v : ChVector) : ChVector :=
  ⟨(q.e0 ^ 2 + q.e1 ^ 2 - q.e2 ^ 2 - q.e3 ^ 2) * v.x
      + 2 * (q.e1 * q.e2 - q.e0 * q.e3) * v.y
      + 2 * (q.e1 * q.e3 + q.e0 * q.e2) * v.z,
   2 * (q.e1 * q.e2 + q.e0 * q.e3) * v.x
      + (q.e0 ^ 2 - q.e1 ^ 2 + q.e2 ^ 2 - q.e3 ^ 2) * v.y
      + 2 * (q.e2 * q.e3 - q.e0 * q.e1) * v.z,
   2 * (q.e1 * q.e3 - q.e0 * q.e2) * v.x
      + 2 * (q.e2 * q.e3 + q.e0 * q.e1) * v.y
      + (q.e0 ^ 2 - q.e1 ^ 2 - q.e2 ^ 2 + q.e3 ^ 2) * v.z⟩

/-- World pose of a rigid body: GetPos() and GetRot(). -/
structure BodyState where
  pos : ChVector
  rot : ChQuaternion

/-- Default body used only to give total meaning to list indexing in
statements (the theorems always carry an in-range bound). -/
def dfltBody : BodyState := ⟨⟨0, 0, 0⟩, ⟨1, 0, 0, 0⟩⟩

/-- Data container for the M113 gear/pin geometry
(TrackCollisionCallback.h lines 29-88). Field names follow the source. -/
structure GearPinGeometry where
  m_gear_base_radius : ℝ
  m_gear_pitch_radius : ℝ
  m_gear_tooth_radius : ℝ
  m_gear_seat_width_max : ℝ
  m_gear_seat_width_min : ℝ
  m_num_teeth : ℕ
  m_key_angle : ℝ
  m_tooth_mid_bar : ChVector
  m_tooth_len : ℝ
  m_tooth_width : ℝ
  m_pin_radius : ℝ
  m_pin_width_max : ℝ
  m_pin_width_min : ℝ
  m_pin_x_offset : ℝ
  m_pin_y_offset : ℝ

open Classical in
/-- The GearPinGeometry constructor (lines 32-66): the member initializer list
stores the arguments, sets m_gear_tooth_radius to pitch minus base, and the
body asserts the three dimensional invariants; an assertion failure aborts
construction, modelled as `none`. -/
noncomputable def GearPinGeometry.construct
    (gear_base_radius gear_pitch_radius gear_seat_width_max gear_seat_width_min : ℝ)
    (tooth_mid_bar : ChVector) (tooth_len tooth_width : ℝ) (num_teeth : ℕ)
    (key_angle pin_radius pin_width_max pin_width_min pin_x_offset pin_y_offset : ℝ) :
    Option GearPinGeometry :=
  if 0 < gear_seat_width_max - gear_seat_width_min ∧
     0 < pin_width_max - pin_width_min ∧
     0 < gear_pitch_radius - gear_base_radius then
    some ⟨gear_base_radius, gear_pitch_radius, gear_pitch_radius - gear_base_radius,
          gear_seat_width_max, gear_seat_width_min, num_teeth, key_angle,
          tooth_mid_bar, tooth_len, tooth_width,
          pin_radius, pin_width_max, pin_width_min, pin_x_offset, pin_y_offset⟩
  else none

/-- A heap of float arrays, making explicit the C++ object memory that the
collision code addresses through pointers (`reactions_cache` buffers). A cell
holds `none` once the object living there has been destroyed. -/
structure Heap where
  cells : List (Option (List ℝ))

/-- Allocate a fresh array; returns the new heap and the fresh address. -/
def Heap.alloc (h : Heap) (v : List ℝ) : Heap × ℕ :=
  (⟨h.cells ++ [some v]⟩, h.cells.length)

/-- Read the array at an address (`none` if freed or out of range). -/
def Heap.read (h : Heap) (a : ℕ) : Option (List ℝ) :=
  h.cells.getD a none

/-- Destroy the object at an address. -/
def Heap.free (h : Heap) (a : ℕ) : Heap :=
  ⟨h.cells.set a none⟩

/-- The contact record filled in Found_GearPin_Contact (lines 180-187):
collision model handles for the two bodies, normal, the two contact points,
distance, and the address of the 6-float warm-start buffer that
`mcont.reaction_cache` points at. -/
structure ContactInfo where
  modelA : ℤ
  modelB : ℤ
  vN : ChVector
  vpA : ChVector
  vpB : ChVector
  distance : ℝ
  reaction_cache : ℕ

/-- State of a GearPinCollisionCallback object (lines 96-288) together with
its observable environment. Fields m_p1_bar .. m_Ncontacts model the C++ data
members; `hashed_contacts` models the ChHashTable as an association list from
shoe identifier to the heap address of that entry's reactions_cache vector;
`heap` is the object memory; `emitted` models the external contact container
fed by AddContact; `numShoes` models m_shoes.size(). -/
structure GearPinCollisionCallback where
  m_p1_bar : ChVector
  m_p2_bar : ChVector
  m_seat1_bar : List ChVector
  m_seat2_bar : List ChVector
  m_geom : GearPinGeometry
  m_contactPrevStep : List Bool
  m_persistentContactSteps : List ℕ
  m_Ncontacts : ℕ
  hashed_contacts : List (ℤ × ℕ)
  heap : Heap
  emitted : List ContactInfo
  numShoes : ℕ

/-- The GearPinCollisionCallback constructor (lines 100-144): computes the pin
cylinder endpoints, fills one seat-cylinder endpoint pair per tooth (the loop
at lines 128-136, whose body does not depend on the loop index), allocates an
empty hash table, and sizes the persistence vectors to the number of shoes
with counters 0 and flags false. m_Ncontacts is initialized to 0 (line 108). -/
noncomputable def mkGearPinCollisionCallback (numShoes : ℕ) (g : GearPinGeometry) :
    GearPinCollisionCallback :=
  { m_p1_bar := ⟨g.m_pin_x_offset, g.m_pin_y_offset, g.m_pin_width_min / 2⟩,
    m_p2_bar := ⟨g.m_pin_x_offset, g.m_pin_y_offset, g.m_pin_width_max / 2⟩,
    m_seat1_bar := (List.range g.m_num_teeth).map (fun _ =>
      ⟨g.m_gear_base_radius * Real.sin g.m_key_angle,
       g.m_gear_base_radius * Real.cos g.m_key_angle,
       g.m_gear_seat_width_min / 2⟩),
    m_seat2_bar := (List.range g.m_num_teeth).map (fun _ =>
      ⟨g.m_gear_base_radius * Real.sin g.m_key_angle,
       g.m_gear_base_radius * Real.cos g.m_key_angle,
       g.m_gear_seat_width_max / 2⟩),
    m_geom := g,
    m_contactPrevStep := List.replicate numShoes false,
    m_persistentContactSteps := List.replicate numShoes 0,
    m_Ncontacts := 0,
    hashed_contacts := [],
    heap := ⟨[]⟩,
    emitted := [],
    numShoes := numShoes }

/-- Found_GearPin_Contact (lines 164-192). The local `std::vector<float>
mreaction_cache` is modelled as a fresh heap object: the function looks the
shoe id up in the hash table, on a miss inserts a default-constructed
GearPinCacheContact whose reactions_cache is six zeros (lines 153-159, 175),
then COPY-assigns the entry's vector into the local (lines 175 and 177 are
`std::vector` copy assignments), stores the address of the local's data in
mcont.reaction_cache (line 187), increments m_Ncontacts, submits the contact,
and on return destroys the local vector (its heap cell is freed). ChHashTable
find/insert (core/ChHashTable.h, outside src) is modelled from the spec as
association-list lookup and cons, with insert default-constructing the mapped
value. -/
def Found_GearPin_Contact (s : GearPinCollisionCallback) (gear shoe : ℤ)
    (shoeID : ℤ) (pa pb vn : ChVector) (mdist : ℝ) : GearPinCollisionCallback :=
  match List.lookup shoeID s.hashed_contacts with
  | some entryAddr =>
    let copyVal := (s.heap.read entryAddr).getD []
    let p := s.heap.alloc copyVal
    let mcont : ContactInfo := ⟨gear, shoe, vn, pa, pb, mdist, p.2⟩
    { s with heap := p.1.free p.2,
             m_Ncontacts := s.m_Ncontacts + 1,
             emitted := s.emitted ++ [mcont] }
  | none =>
    let q := s.heap.alloc (List.replicate 6 (0 : ℝ))
    let table1 := (shoeID, q.2) :: s.hashed_contacts
    let copyVal := (q.1.read q.2).getD []
    let p := q.1.alloc copyVal
    let mcont : ContactInfo := ⟨gear, shoe, vn, pa, pb, mdist, p.2⟩
    { s with heap := p.1.free p.2,
             hashed_contacts := table1,
             m_Ncontacts := s.m_Ncontacts + 1,
             emitted := s.emitted ++ [mcont] }

/-- Gear bounding sphere radius (line 216):
sqrt(pow(m_tooth_mid_bar.Length(), 2) + pow(m_tooth_len * 0.5, 2)). -/
noncomputable def bound_rad_Gear (g : GearPinGeometry) : ℝ :=
  Real.sqrt (g.m_tooth_mid_bar.Length ^ 2 + (g.m_tooth_len * 0.5) ^ 2)

/-- Shoe bounding sphere radius (lines 218-220):
ChVector(m_pin_x_offset + m_pin_radius, m_pin_y_offset, m_pin_width_max/2).Length(). -/
noncomputable def bound_rad_Shoe (g : GearPinGeometry) : ℝ :=
  (ChVector.mk (g.m_pin_x_offset + g.m_pin_radius) g.m_pin_y_offset
    (g.m_pin_width_max / 2)).Length

/-- World position of the shoe bounding sphere center (line 224):
shoe_pos + GetRot().Rotate(ChVector(-m_pin_x_offset, 0, 0)). -/
noncomputable def pin_pos (g : GearPinGeometry) (shoe : BodyState) : ChVector :=
  shoe.pos + shoe.rot.Rotate ⟨-g.m_pin_x_offset, 0, 0⟩

/-- The broad-phase condition of line 225:
(gear_pos - pin_pos).Length() <= bound_rad_Gear + bound_rad_Shoe. -/
noncomputable def broadPhaseCond (g : GearPinGeometry) (gearPos : ChVector)
    (shoe : BodyState) : Prop :=
  (gearPos - pin_pos g shoe).Length ≤ bound_rad_Gear g + bound_rad_Shoe g

open Classical in
/-- The shoe loop of CollisionGearPinFamily (lines 208-255), with the running
index made explicit. Both branches of the broad-phase test are empty in the
source (the narrow phase at lines 228-249 is commented out and the else
branch at lines 250-254 does nothing), so the loop's only observable is which
indices take the then branch, i.e. reach the narrow-phase region; the
returned list records exactly those indices. -/
noncomputable def gearPinBroadPhaseLoop (g : GearPinGeometry) (gearPos : ChVector) :
    List BodyState → ℕ → List ℕ
  | [], _ => []
  | shoe :: rest, idx =>
    if broadPhaseCond g gearPos shoe then
      idx :: gearPinBroadPhaseLoop g gearPos rest (idx + 1)
    else
      gearPinBroadPhaseLoop g gearPos rest (idx + 1)

/-- CollisionGearPinFamily (lines 202-256): iterates the shoes, evaluates the
broad phase for each, and mutates nothing (the per-pair branch bodies are
empty in the source). Returns the unchanged state together with the list of
shoe indices that passed broad phase and reached the narrow-phase region. -/
noncomputable def CollisionGearPinFamily (s : GearPinCollisionCallback)
    (shoes : List BodyState) (gear : BodyState) :
    GearPinCollisionCallback × List ℕ :=
  (s, gearPinBroadPhaseLoop s.m_geom gear.pos shoes 0)

/-- PerformCustomCollision (lines 195-199) just forwards to
CollisionGearPinFamily on the stored gear and shoes. -/
noncomputable def PerformCustomCollision (s : GearPinCollisionCallback)
    (shoes : List BodyState) (gear : BodyState) :
    GearPinCollisionCallback × List ℕ :=
  CollisionGearPinFamily s shoes gear

/-- Get_contactPrevStep (line 258): asserts idx < m_shoes.size() and returns
m_contactPrevStep[idx]; an assertion failure (out-of-range index) is modelled
as `none`. -/
def Get_contactPrevStep (s : GearPinCollisionCallback) (idx : ℕ) : Option Bool :=
  if idx < s.numShoes then s.m_contactPrevStep.get? idx else none

/-- GetNcontacts_GearPin (line 263): returns m_Ncontacts. -/
def GetNcontacts_GearPin (s : GearPinCollisionCallback) : ℕ :=
  s.m_Ncontacts

/-- Modelled from the spec: the ContactCache value store, paragraph 4.2. The
backing container ChHashTable (core/ChHashTable.h) is part of the repository
but not under src, so the cache is modelled as an association list from shoe
identifier to its 6-component reaction record. -/
def ContactCache := List (ℤ × List ℝ)

/-- Modelled from the spec: get_or_create(shoe_id) returns the existing record
or inserts a zero-initialized 6-component record if absent (spec 4.2); the
zero initialization of a fresh record is the GearPinCacheContact constructor
from src lines 153-159. Returns the possibly extended cache and the record. -/
def ContactCache.getOrCreate (c : ContactCache) (shoeID : ℤ) :
    ContactCache × List ℝ :=
  match List.lookup shoeID c with
  | some r => (c, r)
  | none => ((shoeID, List.replicate 6 (0 : ℝ)) :: c, List.replicate 6 (0 : ℝ))

/-- Modelled from the spec: updating the record stored under one identifier in
place (spec 3, ContactCache entry: updated in place on every contacting
step). -/
def ContactCache.update (c : ContactCache) (shoeID : ℤ) (r : List ℝ) :
    ContactCache :=
  c.map (fun p => if p.1 = shoeID then (shoeID, r) else p)

/-- Modelled from the spec: the PersistenceTracker per-shoe step update of
section 4.5, which is missing from src (the narrow phase that drives it,
lines 228-249, is commented out and m_contactPrevStep and
m_persistentContactSteps are never written after construction). State is the
engagement flag and the consecutive-step counter; on a contacting step the
counter becomes 1 from Free and increments from Engaged, on a non-contact
step both reset. -/
def persistenceUpdate (contactThisStep : Bool) (st : Bool × ℕ) : Bool × ℕ :=
  if contactThisStep then (true, if st.1 then st.2 + 1 else 1) else (false, 0)

/-- Runs persistenceUpdate over a sequence of per-step contact outcomes,
returning the state after each step. -/
def persistenceRun (st : Bool × ℕ) : List Bool → List (Bool × ℕ)
  | [] => []
  | c :: cs =>
    let s1 := persistenceUpdate c st
    s1 :: persistenceRun s1 cs

open Classical in
/-- Modelled from the spec: the narrow-phase classification of sections 4.4
and 8, absent from src (the cylinder-cylinder test at lines 232-246 is
commented out). Given the minimum distance d between the pin cylinder axis
and a seat cylinder axis and the two radii, the pair is in contact iff
d is at most the sum of the radii, with penetration depth (sum of radii) - d;
otherwise no contact record is produced. -/
noncomputable def narrowPhaseDetect (d r_pin r_seat : ℝ) : Option ℝ :=
  if d ≤ r_pin + r_seat then some (r_pin + r_seat - d) else none

/-- Concrete gear/pin geometry used by witnesses and counterexamples: base
radius 1, pitch radius 2 (tooth radius 1), seat widths 2/1, 10 teeth, key
angle 0, tooth midpoint (0,1,0), tooth length 0 and width 1, pin radius 1,
pin widths 6/1, pin offsets x 3 and y 0. Satisfies the three constructor
invariants, and makes bound_rad_Gear 1 and bound_rad_Shoe 5. -/
noncomputable def exampleGeom : GearPinGeometry :=
  ⟨1, 2, 1, 2, 1, 10, 0, ⟨0, 1, 0⟩, 0, 1, 1, 6, 1, 3, 0⟩

/-- A shoe at the world origin with identity orientation. -/
def exampleShoe : BodyState := ⟨⟨0, 0, 0⟩, ⟨1, 0, 0, 0⟩⟩

/-- A callback state over exampleGeom with 4 shoes. -/
noncomputable def exampleCallback : GearPinCollisionCallback :=
  mkGearPinCollisionCallback 4 exampleGeom

/-- First call of Found_GearPin_Contact on the fresh example state: gear
handle 1, shoe handle 2, shoe identifier 3, zero contact points, normal and
distance. This is the first contacting step for shoe 3. -/
noncomputable def exampleFound1 : GearPinCollisionCallback :=
  Found_GearPin_Contact exampleCallback 1 2 3 ⟨0, 0, 0⟩ ⟨0, 0, 0⟩ ⟨0, 0, 0⟩ 0

/-- Second call of Found_GearPin_Contact for the same shoe identifier,
modelling the next contacting step. -/
noncomputable def exampleFound2 : GearPinCollisionCallback :=
  Found_GearPin_Contact exampleFound1 1 2 3 ⟨0, 0, 0⟩ ⟨0, 0, 0⟩ ⟨0, 0, 0⟩ 0

/-- Modelled from the claim wording of the broad phase (spec 4.3 as read by
the claim): pin center = shoe position plus the shoe rotation applied to the
pin offset (m_pin_x_offset, m_pin_y_offset, 0); acceptance iff the distance
from the gear center to that point is at most the sum of the two bounding
radii. Stated only to compare against the source condition broadPhaseCond. -/
noncomputable def broadPhaseAccept_spec (g : GearPinGeometry) (gearPos : ChVector)
    (shoe : BodyState) : Prop :=
  (gearPos - (shoe.pos + shoe.rot.Rotate ⟨g.m_pin_x_offset, g.m_pin_y_offset, 0⟩)).Length
    ≤ bound_rad_Gear g + bound_rad_Shoe g

/-! Helper lemmas. -/

/-- Evaluate ChVector.Length once the sum of squares is a recognizable
square. -/
theorem length_eval (v : ChVector) (r : ℝ) (h0 : 0 ≤ r)
    (h : v.x ^ 2 + v.y ^ 2 + v.z ^ 2 = r ^ 2) : v.Length = r := by
  rw [ChVector.Length, h, Real.sqrt_sq h0]

/-- Evaluate a square root at a recognizable square. -/
theorem sqrt_eval (x r : ℝ) (h0 : 0 ≤ r) (h : x = r ^ 2) : Real.sqrt x = r := by
  rw [h, Real.sqrt_sq h0]

/-- The identity quaternion rotates every vector to itself. -/
theorem rotate_id (v : ChVector) : ChQuaternion.Rotate ⟨1, 0, 0, 0⟩ v = v := by
  simp only [ChQuaternion.Rotate]
  cases v
  norm_num

/-- Membership in the broad-phase loop trace: an index is recorded iff it
points at a shoe of the list whose broad-phase condition holds, shifted by
the starting index. -/
theorem mem_gearPinBroadPhaseLoop (g : GearPinGeometry) (gp : ChVector) :
    ∀ (shoes : List BodyState) (k idx : ℕ),
      (idx ∈ gearPinBroadPhaseLoop g gp shoes k ↔
        ∃ j, j < shoes.length ∧ idx = k + j ∧
          broadPhaseCond g gp (shoes.getD j dfltBody)) := by
  intro shoes
  induction shoes with
  | nil =>
    intro k idx
    simp [gearPinBroadPhaseLoop]
  | cons shoe rest ih =>
    intro k idx
    by_cases h : broadPhaseCond g gp shoe
    · rw [gearPinBroadPhaseLoop, if_pos h]
      simp only [List.mem_cons, ih (k + 1) idx]
      constructor
      · rintro (rfl | ⟨j, hj, rfl, hc⟩)
        · exact ⟨0, by simp, by simp, by simpa using h⟩
        · exact ⟨j + 1, by simpa using hj, by omega, by simpa using hc⟩
      · rintro ⟨j, hj, rfl, hc⟩
        match j with
        | 0 => left; simp
        | j + 1 =>
          right
          exact ⟨j, by simpa using hj, by omega, by simpa using hc⟩
    · rw [gearPinBroadPhaseLoop, if_neg h]
      rw [ih (k + 1) idx]
      constructor
      · rintro ⟨j, hj, rfl, hc⟩
        exact ⟨j + 1, by simpa using hj, by omega, by simpa using hc⟩
      · rintro ⟨j, hj, rfl, hc⟩
        match j with
        | 0 => exact absurd (by simpa using hc) h
        | j + 1 =>
          exact ⟨j, by simpa using hj, by omega, by simpa using hc⟩

/-- Componentwise evaluation of ChVector addition. -/
theorem add_eval (a b c d e f : ℝ) :
    (ChVector.mk a b c) + ⟨d, e, f⟩ = ⟨a + d, b + e, c + f⟩ := rfl

/-- Componentwise evaluation of ChVector subtraction. -/
theorem sub_eval (a b c d e f : ℝ) :
    (ChVector.mk a b c) - ⟨d, e, f⟩ = ⟨a - d, b - e, c - f⟩ := rfl

/-- The gear bounding radius of the example geometry is 1. -/
theorem bound_rad_Gear_example : bound_rad_Gear exampleGeom = 1 := by
  have hmid : (ChVector.mk 0 1 0).Length = 1 :=
    length_eval _ 1 (by norm_num) (by norm_num)
  rw [bound_rad_Gear, show exampleGeom.m_tooth_mid_bar = ⟨0, 1, 0⟩ from rfl, hmid,
    show exampleGeom.m_tooth_len = (0 : ℝ) from rfl]
  exact sqrt_eval _ 1 (by norm_num) (by norm_num)

/-- The shoe bounding radius of the example geometry is 5. -/
theorem bound_rad_Shoe_example : bound_rad_Shoe exampleGeom = 5 := by
  rw [bound_rad_Shoe, show exampleGeom.m_pin_x_offset = (3 : ℝ) from rfl,
    show exampleGeom.m_pin_radius = (1 : ℝ) from rfl,
    show exampleGeom.m_pin_y_offset = (0 : ℝ) from rfl,
    show exampleGeom.m_pin_width_max = (6 : ℝ) from rfl]
  exact length_eval _ 5 (by norm_num) (by norm_num)

/-- The code places the example shoe's bounding sphere at world (-3, 0, 0). -/
theorem pin_pos_example : pin_pos exampleGeom exampleShoe = ⟨-3, 0, 0⟩ := by
  rw [pin_pos, show exampleShoe.rot = ChQuaternion.mk 1 0 0 0 from rfl,
    show exampleShoe.pos = ChVector.mk 0 0 0 from rfl,
    show exampleGeom.m_pin_x_offset = (3 : ℝ) from rfl, rotate_id, add_eval]
  norm_num

/-! Claim theorems. -/

/-- C1: refuted as stated; this theorem evaluates the code at the failing
input. On the first contacting step for shoe identifier 3 the cache entry is
created zero-initialized (address 0 below), but the emitted contact's
warm-start buffer is the address of a function-local copy (address 1), not
the ContactCache entry itself; that local is destroyed when
Found_GearPin_Contact returns, so the attached pointer is dangling (reads
`none`), and the cache entry is never updated in place: after a second
contacting step it still holds the six zeros it was created with, and the
second contact again points at a fresh dead local (address 2). -/
theorem C1_found_contact_attaches_local_copy :
    exampleFound1.hashed_contacts = [(3, 0)] ∧
    exampleFound1.emitted
      = [⟨1, 2, ⟨0, 0, 0⟩, ⟨0, 0, 0⟩, ⟨0, 0, 0⟩, 0, 1⟩] ∧
    exampleFound1.heap.read 1 = none ∧
    exampleFound1.heap.read 0 = some (List.replicate 6 0) ∧
    exampleFound2.emitted
      = [⟨1, 2, ⟨0, 0, 0⟩, ⟨0, 0, 0⟩, ⟨0, 0, 0⟩, 0, 1⟩,
         ⟨1, 2, ⟨0, 0, 0⟩, ⟨0, 0, 0⟩, ⟨0, 0, 0⟩, 0, 2⟩] ∧
    exampleFound2.heap.read 2 = none ∧
    exampleFound2.heap.read 0 = some (List.replicate 6 0) :=
  ⟨rfl, rfl, rfl, rfl, rfl, rfl, rfl⟩

/-- C3: GearPinGeometry construction succeeds iff the three differential
invariants hold (seat width max minus min, pin width max minus min, and pitch
radius minus base radius all positive), and on success the constructed object
stores the derived tooth radius pitch minus base. -/
theorem C3_geometry_construction_iff :
    ∀ (br pr swmax swmin : ℝ) (mid : ChVector) (tl tw : ℝ) (nt : ℕ)
      (ka prad pwmax pwmin px py : ℝ),
      ((GearPinGeometry.construct br pr swmax swmin mid tl tw nt
          ka prad pwmax pwmin px py).isSome
        ↔ (0 < swmax - swmin ∧ 0 < pwmax - pwmin ∧ 0 < pr - br)) ∧
      ((0 < swmax - swmin ∧ 0 < pwmax - pwmin ∧ 0 < pr - br) →
        GearPinGeometry.construct br pr swmax swmin mid tl tw nt
            ka prad pwmax pwmin px py
          = some ⟨br, pr, pr - br, swmax, swmin, nt, ka, mid, tl, tw,
                  prad, pwmax, pwmin, px, py⟩) := by
  intro br pr swmax swmin mid tl tw nt ka prad pwmax pwmin px py
  constructor
  · constructor
    · intro h
      by_contra hc
      rw [GearPinGeometry.construct, if_neg hc] at h
      exact absurd h (by simp)
    · intro h
      rw [GearPinGeometry.construct, if_pos h]
      rfl
  · intro h
    rw [GearPinGeometry.construct, if_pos h]

/-- Witness for C3: with base radius 1, pitch radius 2, seat widths 2 and 1
and pin widths 2 and 1 all three invariants hold and construction produces
the record whose stored tooth radius is 2 - 1. -/
theorem C3_geometry_construction_iff_witness :
    ((0 : ℝ) < 2 - 1 ∧ (0 : ℝ) < 2 - 1 ∧ (0 : ℝ) < 2 - 1) ∧
    GearPinGeometry.construct 1 2 2 1 ⟨0, 0, 0⟩ 0 0 1 0 1 2 1 0 0
      = some ⟨1, 2, 2 - 1, 2, 1, 1, 0, ⟨0, 0, 0⟩, 0, 0, 1, 2, 1, 0, 0⟩ := by
  have h : ((0 : ℝ) < 2 - 1 ∧ (0 : ℝ) < 2 - 1 ∧ (0 : ℝ) < 2 - 1) := by norm_num
  exact ⟨h, (C3_geometry_construction_iff 1 2 2 1 ⟨0, 0, 0⟩ 0 0 1 0 1 2 1 0 0).2 h⟩

/-- C9: at construction every tooth gets the same seat cylinder endpoint
pair, inner at (base sin key, base cos key, seat width min / 2) and outer at
(base sin key, base cos key, seat width max / 2), with no per-tooth angular
rotation, and neither the per-step driver nor contact submission ever
modifies the endpoint lists. -/
theorem C9_seat_endpoints_identical :
    (∀ (n : ℕ) (g : GearPinGeometry),
      (mkGearPinCollisionCallback n g).m_seat1_bar
        = List.replicate g.m_num_teeth
            ⟨g.m_gear_base_radius * Real.sin g.m_key_angle,
             g.m_gear_base_radius * Real.cos g.m_key_angle,
             g.m_gear_seat_width_min / 2⟩ ∧
      (mkGearPinCollisionCallback n g).m_seat2_bar
        = List.replicate g.m_num_teeth
            ⟨g.m_gear_base_radius * Real.sin g.m_key_angle,
             g.m_gear_base_radius * Real.cos g.m_key_angle,
             g.m_gear_seat_width_max / 2⟩) ∧
    (∀ (s : GearPinCollisionCallback) (shoes : List BodyState) (gear : BodyState),
      (PerformCustomCollision s shoes gear).1.m_seat1_bar = s.m_seat1_bar ∧
      (PerformCustomCollision s shoes gear).1.m_seat2_bar = s.m_seat2_bar) ∧
    (∀ (s : GearPinCollisionCallback) (gear shoe shoeID : ℤ)
        (pa pb vn : ChVector) (mdist : ℝ),
      (Found_GearPin_Contact s gear shoe shoeID pa pb vn mdist).m_seat1_bar
        = s.m_seat1_bar ∧
      (Found_GearPin_Contact s gear shoe shoeID pa pb vn mdist).m_seat2_bar
        = s.m_seat2_bar) := by
  refine ⟨?_, fun s shoes gear => ⟨rfl, rfl⟩, ?_⟩
  · intro n g
    constructor
    · rw [mkGearPinCollisionCallback]
      simp [List.map_const', List.length_range]
    · rw [mkGearPinCollisionCallback]
      simp [List.map_const', List.length_range]
  · intro s gear shoe shoeID pa pb vn mdist
    rcases h : List.lookup shoeID s.hashed_contacts with _ | a
    · exact ⟨by simp [Found_GearPin_Contact, h], by simp [Found_GearPin_Contact, h]⟩
    · exact ⟨by simp [Found_GearPin_Contact, h], by simp [Found_GearPin_Contact, h]⟩

/-- C4 counterexample: the claim's reading of the broad phase (pin center
obtained by rotating the pin offset (m_pin_x_offset, m_pin_y_offset, 0))
accepts the example pair with the gear at (4, 0, 0): the claimed pin center
is (3, 0, 0), giving distance 1 against bounding-radius sum 6. The source
instead rotates (-m_pin_x_offset, 0, 0), placing the pin center at
(-3, 0, 0) and the distance at 7, so the driver does not send shoe 0 to the
narrow-phase region: the claimed equivalence fails at this input. -/
theorem C4_broad_phase_spec_formula_cex :
    broadPhaseAccept_spec exampleGeom ⟨4, 0, 0⟩ exampleShoe ∧
    0 ∉ (CollisionGearPinFamily exampleCallback [exampleShoe]
          ⟨⟨4, 0, 0⟩, ⟨1, 0, 0, 0⟩⟩).2 := by
  constructor
  · rw [broadPhaseAccept_spec, bound_rad_Gear_example, bound_rad_Shoe_example,
      show exampleShoe.rot = ChQuaternion.mk 1 0 0 0 from rfl,
      show exampleShoe.pos = ChVector.mk 0 0 0 from rfl,
      show exampleGeom.m_pin_x_offset = (3 : ℝ) from rfl,
      show exampleGeom.m_pin_y_offset = (0 : ℝ) from rfl,
      rotate_id, add_eval, sub_eval]
    have h1 : ChVector.Length ⟨4 - (0 + 3), 0 - (0 + 0), 0 - (0 + 0)⟩ = 1 :=
      length_eval _ 1 (by norm_num) (by norm_num)
    rw [h1]
    norm_num
  · have hcond : ¬ broadPhaseCond exampleGeom ⟨4, 0, 0⟩ exampleShoe := by
      rw [broadPhaseCond, pin_pos_example, bound_rad_Gear_example,
        bound_rad_Shoe_example, sub_eval]
      have h7 : ChVector.Length ⟨4 - -3, 0 - 0, 0 - 0⟩ = 7 :=
        length_eval _ 7 (by norm_num) (by norm_num)
      rw [h7]
      norm_num
    rw [show (CollisionGearPinFamily exampleCallback [exampleShoe]
          ⟨⟨4, 0, 0⟩, ⟨1, 0, 0, 0⟩⟩).2
        = gearPinBroadPhaseLoop exampleGeom ⟨4, 0, 0⟩ [exampleShoe] 0 from rfl]
    rw [mem_gearPinBroadPhaseLoop]
    rintro ⟨j, hj, h0, hc⟩
    have hj0 : j = 0 := by simpa using hj
    subst hj0
    exact hcond (by simpa using hc)

/-- C4 amended: a shoe index reaches the narrow-phase region of the per-step
driver iff it is in range and the distance from the gear center to the
shoe's world pin center is at most the gear bounding radius
sqrt(tooth_mid_bar-length squared plus (tooth_len/2) squared) plus the shoe
bounding radius, where the pin center is obtained by rotating the NEGATED
x-offset vector (-m_pin_x_offset, 0, 0) (the y offset is ignored) by the
shoe's rotation and translating by the shoe position; the boundary case
(distance equal to the sum) is accepted. -/
theorem C4_broad_phase_accept_iff :
    ∀ (s : GearPinCollisionCallback) (shoes : List BodyState)
      (gear : BodyState) (idx : ℕ),
      idx ∈ (CollisionGearPinFamily s shoes gear).2 ↔
        idx < shoes.length ∧
          (gear.pos - ((shoes.getD idx dfltBody).pos +
              (shoes.getD idx dfltBody).rot.Rotate
                ⟨-s.m_geom.m_pin_x_offset, 0, 0⟩)).Length
            ≤ Real.sqrt (s.m_geom.m_tooth_mid_bar.Length ^ 2
                + (s.m_geom.m_tooth_len * 0.5) ^ 2)
              + (ChVector.mk (s.m_geom.m_pin_x_offset + s.m_geom.m_pin_radius)
                  s.m_geom.m_pin_y_offset (s.m_geom.m_pin_width_max / 2)).Length := by
  intro s shoes gear idx
  rw [show (CollisionGearPinFamily s shoes gear).2
      = gearPinBroadPhaseLoop s.m_geom gear.pos shoes 0 from rfl]
  rw [mem_gearPinBroadPhaseLoop]
  constructor
  · rintro ⟨j, hj, rfl, hc⟩
    rw [broadPhaseCond, pin_pos, bound_rad_Gear, bound_rad_Shoe] at hc
    exact ⟨by simpa using hj, by simpa using hc⟩
  · rintro ⟨hlt, hc⟩
    refine ⟨idx, hlt, (Nat.zero_add idx).symm, ?_⟩
    rw [broadPhaseCond, pin_pos, bound_rad_Gear, bound_rad_Shoe]
    exact hc

/-- C8: if the broad-phase distance for a shoe exceeds the sum of the two
bounding radii, that shoe index never reaches the narrow-phase region, and
the step leaves the contact counter, the contact cache and the external
contact container untouched (in the source the whole step mutates nothing,
so this holds a fortiori for the rejected shoe: no contact is submitted for
it and no cache entry is created for its identifier). -/
theorem C8_broad_phase_reject_no_effect :
    ∀ (s : GearPinCollisionCallback) (shoes : List BodyState)
      (gear : BodyState) (idx : ℕ),
      bound_rad_Gear s.m_geom + bound_rad_Shoe s.m_geom
          < (gear.pos - pin_pos s.m_geom (shoes.getD idx dfltBody)).Length →
      (idx ∉ (CollisionGearPinFamily s shoes gear).2 ∧
       (CollisionGearPinFamily s shoes gear).1.m_Ncontacts = s.m_Ncontacts ∧
       (CollisionGearPinFamily s shoes gear).1.hashed_contacts
          = s.hashed_contacts ∧
       (CollisionGearPinFamily s shoes gear).1.emitted = s.emitted) := by
  intro s shoes gear idx h
  refine ⟨?_, rfl, rfl, rfl⟩
  rw [show (CollisionGearPinFamily s shoes gear).2
      = gearPinBroadPhaseLoop s.m_geom gear.pos shoes 0 from rfl]
  rw [mem_gearPinBroadPhaseLoop]
  rintro ⟨j, hj, hje, hc⟩
  have hji : j = idx := by omega
  subst hji
  rw [broadPhaseCond] at hc
  linarith

/-- Witness for C8: with the gear at (20, 0, 0) the example shoe's pin center
sits at (-3, 0, 0), at distance 23 from the gear against a bounding-radius
sum of 6, and the step records nothing for it and changes nothing. -/
theorem C8_broad_phase_reject_no_effect_witness :
    (bound_rad_Gear exampleCallback.m_geom + bound_rad_Shoe exampleCallback.m_geom
        < ((BodyState.mk ⟨20, 0, 0⟩ ⟨1, 0, 0, 0⟩).pos
            - pin_pos exampleCallback.m_geom
                ([exampleShoe].getD 0 dfltBody)).Length) ∧
    (0 ∉ (CollisionGearPinFamily exampleCallback [exampleShoe]
            ⟨⟨20, 0, 0⟩, ⟨1, 0, 0, 0⟩⟩).2 ∧
     (CollisionGearPinFamily exampleCallback [exampleShoe]
        ⟨⟨20, 0, 0⟩, ⟨1, 0, 0, 0⟩⟩).1.m_Ncontacts = exampleCallback.m_Ncontacts ∧
     (CollisionGearPinFamily exampleCallback [exampleShoe]
        ⟨⟨20, 0, 0⟩, ⟨1, 0, 0, 0⟩⟩).1.hashed_contacts
        = exampleCallback.hashed_contacts ∧
     (CollisionGearPinFamily exampleCallback [exampleShoe]
        ⟨⟨20, 0, 0⟩, ⟨1, 0, 0, 0⟩⟩).1.emitted = exampleCallback.emitted) := by
  have h : bound_rad_Gear exampleCallback.m_geom + bound_rad_Shoe exampleCallback.m_geom
      < ((BodyState.mk ⟨20, 0, 0⟩ ⟨1, 0, 0, 0⟩).pos
          - pin_pos exampleCallback.m_geom ([exampleShoe].getD 0 dfltBody)).Length := by
    rw [show exampleCallback.m_geom = exampleGeom from rfl,
      show [exampleShoe].getD 0 dfltBody = exampleShoe from rfl,
      show (BodyState.mk ⟨20, 0, 0⟩ ⟨1, 0, 0, 0⟩).pos = ChVector.mk 20 0 0 from rfl,
      pin_pos_example, bound_rad_Gear_example, bound_rad_Shoe_example, sub_eval]
    have h23 : ChVector.Length ⟨20 - -3, 0 - 0, 0 - 0⟩ = 23 :=
      length_eval _ 23 (by norm_num) (by norm_num)
    rw [h23]
    norm_num
  exact ⟨h, C8_broad_phase_reject_no_effect exampleCallback [exampleShoe]
    ⟨⟨20, 0, 0⟩, ⟨1, 0, 0, 0⟩⟩ 0 h⟩

/-- C2: the per-shoe persistence state follows the two-state machine: a
contacting step from a non-contact state sets the consecutive-step counter to
1, a contacting step from a contacting state increments it, a non-contact
step resets it to 0, and a Free, Engaged, Engaged, Free sequence of four
consecutive steps yields the counts 0, 1, 2, 0. -/
theorem C2_persistence_state_machine :
    (∀ c : ℕ, persistenceUpdate true (false, c) = (true, 1)) ∧
    (∀ c : ℕ, persistenceUpdate true (true, c) = (true, c + 1)) ∧
    (∀ (e : Bool) (c : ℕ), persistenceUpdate false (e, c) = (false, 0)) ∧
    (persistenceRun (false, 0) [false, true, true, false]).map Prod.snd
      = [0, 1, 2, 0] := by
  refine ⟨fun c => rfl, fun c => rfl, fun e c => rfl, rfl⟩

/-- C5: get_or_create on an absent identifier inserts a record of six zeros
and returns it; two consecutive get_or_create calls with the same identifier
and no intervening update return identical records; and updating the record
under one identifier leaves every other identifier's record unchanged. -/
theorem C5_cache_get_or_create :
    (∀ (c : ContactCache) (id : ℤ), List.lookup id c = none →
      (c.getOrCreate id).2 = List.replicate 6 (0 : ℝ) ∧
      List.lookup id (c.getOrCreate id).1 = some (List.replicate 6 (0 : ℝ))) ∧
    (∀ (c : ContactCache) (id : ℤ),
      ((c.getOrCreate id).1.getOrCreate id).2 = (c.getOrCreate id).2) ∧
    (∀ (c : ContactCache) (id1 id2 : ℤ) (r : List ℝ), id1 ≠ id2 →
      List.lookup id2 (c.update id1 r) = List.lookup id2 c) := by
  refine ⟨?_, ?_, ?_⟩
  · intro c id h
    simp [ContactCache.getOrCreate, h, List.lookup]
  · intro c id
    rcases h : List.lookup id c with _ | r
    · simp [ContactCache.getOrCreate, h, List.lookup]
    · simp [ContactCache.getOrCreate, h]
  · intro c id1 id2 r hne
    induction c with
    | nil => rfl
    | cons p rest ih =>
      rcases p with ⟨k, v⟩
      have hupd : ContactCache.update ((k, v) :: rest) id1 r
          = (if k = id1 then (id1, r) else (k, v)) :: ContactCache.update rest id1 r := rfl
      by_cases hk : k = id1
      · subst hk
        have hb : (id2 == k) = false := beq_eq_false_iff_ne.mpr (Ne.symm hne)
        rw [hupd, if_pos rfl]
        simp only [List.lookup_cons, hb]
        exact ih
      · rw [hupd, if_neg hk]
        simp only [List.lookup_cons]
        cases hbe : id2 == k
        · exact ih
        · rfl

/-- Witness for C5: on the empty cache, identifier 5 is absent, get_or_create
inserts and returns six zeros; and updating identifier 5 in a two-entry cache
leaves the record of identifier 7 untouched. -/
theorem C5_cache_get_or_create_witness :
    (List.lookup (5 : ℤ) ([] : ContactCache) = none ∧
      (ContactCache.getOrCreate [] 5).2 = List.replicate 6 (0 : ℝ) ∧
      List.lookup (5 : ℤ) (ContactCache.getOrCreate [] 5).1
        = some (List.replicate 6 (0 : ℝ))) ∧
    ((5 : ℤ) ≠ 7 ∧
      List.lookup (7 : ℤ)
          (ContactCache.update
            ([(5, List.replicate 6 0), (7, List.replicate 6 0)] : ContactCache)
            5 [1, 2, 3, 4, 5, 6])
        = List.lookup (7 : ℤ)
            ([(5, List.replicate 6 0), (7, List.replicate 6 0)] : ContactCache)) := by
  have h1 : List.lookup (5 : ℤ) ([] : ContactCache) = none := rfl
  have h2 : (5 : ℤ) ≠ 7 := by decide
  exact ⟨⟨h1, (C5_cache_get_or_create.1 [] 5 h1).1,
          (C5_cache_get_or_create.1 [] 5 h1).2⟩,
         ⟨h2, C5_cache_get_or_create.2.2
            ([(5, List.replicate 6 0), (7, List.replicate 6 0)] : ContactCache)
            5 7 [1, 2, 3, 4, 5, 6] h2⟩⟩

/-- C6: the contact counter starts at 0 at construction, Found_GearPin_Contact
increments it by exactly 1 while appending exactly one contact to the external
container, the per-step driver never changes it, and therefore the value
returned by GetNcontacts_GearPin is cumulative and monotonically
non-decreasing across steps. -/
theorem C6_contact_counter_cumulative :
    (∀ (n : ℕ) (g : GearPinGeometry),
      GetNcontacts_GearPin (mkGearPinCollisionCallback n g) = 0) ∧
    (∀ (s : GearPinCollisionCallback) (gear shoe shoeID : ℤ)
        (pa pb vn : ChVector) (mdist : ℝ),
      GetNcontacts_GearPin (Found_GearPin_Contact s gear shoe shoeID pa pb vn mdist)
        = GetNcontacts_GearPin s + 1 ∧
      (Found_GearPin_Contact s gear shoe shoeID pa pb vn mdist).emitted.length
        = s.emitted.length + 1) ∧
    (∀ (s : GearPinCollisionCallback) (shoes : List BodyState) (gear : BodyState),
      GetNcontacts_GearPin (PerformCustomCollision s shoes gear).1
        = GetNcontacts_GearPin s) := by
  refine ⟨fun n g => rfl, ?_, fun s shoes gear => rfl⟩
  intro s gear shoe shoeID pa pb vn mdist
  rcases h : List.lookup shoeID s.hashed_contacts with _ | a
  · constructor
    · simp [GetNcontacts_GearPin, Found_GearPin_Contact, h]
    · simp [Found_GearPin_Contact, h]
  · constructor
    · simp [GetNcontacts_GearPin, Found_GearPin_Contact, h]
    · simp [Found_GearPin_Contact, h]

/-- C7: whenever the narrow phase reports a contact its penetration depth is
nonnegative, no contact is reported when the minimum distance between the pin
and seat cylinder axes exceeds the sum of the two radii, and a pin exactly at
the seat surface (axis distance equal to the sum of radii) is classified as a
contact of penetration depth 0. -/
theorem C7_narrow_phase_depth :
    (∀ d r_pin r_seat p : ℝ, narrowPhaseDetect d r_pin r_seat = some p → 0 ≤ p) ∧
    (∀ d r_pin r_seat : ℝ, r_pin + r_seat < d →
      narrowPhaseDetect d r_pin r_seat = none) ∧
    (∀ r_pin r_seat : ℝ,
      narrowPhaseDetect (r_pin + r_seat) r_pin r_seat = some 0) := by
  refine ⟨?_, ?_, ?_⟩
  · intro d r_pin r_seat p h
    rw [narrowPhaseDetect] at h
    by_cases hd : d ≤ r_pin + r_seat
    · rw [if_pos hd] at h
      have : r_pin + r_seat - d = p := by injection h
      linarith
    · rw [if_neg hd] at h
      exact absurd h (by simp)
  · intro d r_pin r_seat h
    rw [narrowPhaseDetect, if_neg (by linarith)]
  · intro r_pin r_seat
    rw [narrowPhaseDetect, if_pos le_rfl]
    norm_num

/-- Witness for C7 at concrete inputs: distance 1 against radii 2 and 3 gives
depth 4 which is nonnegative, distance 9 gives no contact, and distance
exactly 2 + 3 gives a contact of depth 0. -/
theorem C7_narrow_phase_depth_witness :
    (0 : ℝ) ≤ 4 ∧
    narrowPhaseDetect 9 2 3 = none ∧
    narrowPhaseDetect (2 + 3) 2 3 = some 0 :=
  ⟨C7_narrow_phase_depth.1 1 2 3 4 (by rw [narrowPhaseDetect, if_pos (by norm_num)]; norm_num),
   C7_narrow_phase_depth.2.1 9 2 3 (by norm_num),
   C7_narrow_phase_depth.2.2 2 3⟩

/-- C10: for every index strictly below the shoe count the previous-step
contact query returns the stored per-shoe flag (the internal assertion holds
and the query succeeds), while an out-of-range index trips the assertion and
is a contract violation, not a recoverable result. -/
theorem C10_get_contact_prev_step :
    (∀ (s : GearPinCollisionCallback) (idx : ℕ), idx < s.numShoes →
      s.m_contactPrevStep.length = s.numShoes →
      Get_contactPrevStep s idx = s.m_contactPrevStep.get? idx ∧
      (Get_contactPrevStep s idx).isSome = true) ∧
    (∀ (s : GearPinCollisionCallback) (idx : ℕ), s.numShoes ≤ idx →
      Get_contactPrevStep s idx = none) := by
  constructor
  · intro s idx h hlen
    constructor
    · rw [Get_contactPrevStep, if_pos h]
    · rw [Get_contactPrevStep, if_pos h]
      have hlt : idx < s.m_contactPrevStep.length := by omega
      rw [List.get?_eq_get hlt]
      rfl
  · intro s idx h
    rw [Get_contactPrevStep, if_neg (by omega)]

/-- Witness for C10: on a freshly constructed callback with 4 shoes, index 2
is in range and the query returns the stored flag, and index 7 is rejected. -/
theorem C10_get_contact_prev_step_witness :
    (2 < exampleCallback.numShoes ∧
      exampleCallback.m_contactPrevStep.length = exampleCallback.numShoes ∧
      Get_contactPrevStep exampleCallback 2
        = exampleCallback.m_contactPrevStep.get? 2 ∧
      (Get_contactPrevStep exampleCallback 2).isSome = true) ∧
    (exampleCallback.numShoes ≤ 7 ∧
      Get_contactPrevStep exampleCallback 7 = none) := by
  have h1 : 2 < exampleCallback.numShoes := by
    simp [exampleCallback, mkGearPinCollisionCallback]
  have h2 : exampleCallback.m_contactPrevStep.length = exampleCallback.numShoes := by
    simp [exampleCallback, mkGearPinCollisionCallback]
  have h3 : exampleCallback.numShoes ≤ 7 := by
    simp [exampleCallback, mkGearPinCollisionCallback]
  exact ⟨⟨h1, h2, (C10_get_contact_prev_step.1 exampleCallback 2 h1 h2).1,
          (C10_get_contact_prev_step.1 exampleCallback 2 h1 h2).2⟩,
         ⟨h3, C10_get_contact_prev_step.2 exampleCallback 7 h3⟩⟩

end Chrono
